import Mathlib

set_option autoImplicit false

/-!
Verification development for the hyperion/artemis beamline orchestration code.

Each section embeds one part of the Python source as executable Lean
definitions (plans become functions from device readings to the list of
emitted commands; stateful callbacks become explicit state-passing
functions; fallible code returns `Except`/`Option`), and the theorems at
the end of the file settle the specification claims against them.
-/

namespace Hyperion

/-- A 3-D point, as `artemis.utils.Point3D` (a named tuple of x, y, z). -/
structure Point3D where
  x : ℚ
  y : ℚ
  z : ℚ
deriving DecidableEq, Repr

/-- The exception kinds the embedded code can raise.  `warning` embeds
`artemis.exceptions.WarningException`, a distinguished catchable class;
`keyError` embeds a Python `KeyError`; `assertionError` a failed
`assert`; `genericError` a plain `Exception`. -/
inductive Err where
  | assertionError
  | warning (msg : String)
  | keyError (k : String)
  | genericError (msg : String)
deriving DecidableEq, Repr

/-! ### Aperture selection

From `src/artemis/experiment_plans/stepped_grid_scan_plan.py`,
`set_aperture_for_bbox_size`: the bounding box is `[x, y, z]` and only
`bbox_size[0]` is consulted; below 2 selects MEDIUM, otherwise LARGE.
Indexing an empty list raises in Python, hence the `Option`. -/

inductive Aperture where
  | MEDIUM
  | LARGE
deriving DecidableEq, Repr

def set_aperture_for_bbox_size (bbox_size : List ℤ) : Option Aperture :=
  match bbox_size with
  | [] => none
  | x :: _ => some (if x < 2 then Aperture.MEDIUM else Aperture.LARGE)

/-! ### Top-up gate

From `src/hyperion/device_setup_plans/check_topup.py`.  The synchrotron's
`top_up.start_countdown` PV is read several times in sequence; we embed the
device as a stream `s : Nat -> Rat` giving the value returned by the n-th
read of that PV, together with the machine mode and the single read of
`top_up.end_countdown`.  The function returns the list of durations passed
to `bps.sleep`, in order; the poll loop carries fuel because the source
`while` loop need not terminate, and `none` means the fuel ran out. -/

inductive SynchrotronMode where
  | SHUTDOWN | INJECTION | NO_BEAM | MC | USER | SPECIAL | BL_STARTUP | UNKNOWN
deriving DecidableEq, Repr

def ALLOWED_MODES : List SynchrotronMode := [SynchrotronMode.USER, SynchrotronMode.SPECIAL]

/-- Value of the start_countdown PV when in decay mode. -/
def DECAY_MODE_COUNTDOWN : ℚ := -1

def COUNTDOWN_DURING_TOPUP : ℚ := 0

def in_decay_mode (time_to_topup : ℚ) : Bool :=
  decide (time_to_topup = DECAY_MODE_COUNTDOWN)

def gating_permitted (machine_mode : SynchrotronMode) : Bool :=
  decide (machine_mode ∈ ALLOWED_MODES)

def delay_to_avoid_topup (total_run_time time_to_topup : ℚ) : Bool :=
  decide (total_run_time > time_to_topup)

/-- `wait_for_topup_complete`: re-read start_countdown (read index `i`) and,
while it reads 0, sleep 0.1 s and read again. -/
def wait_for_topup_complete (s : ℕ → ℚ) (i : ℕ) (fuel : ℕ) : Option (List ℚ) :=
  match fuel with
  | 0 => none
  | Nat.succ f =>
    if s i = COUNTDOWN_DURING_TOPUP then
      Option.map (fun l => (1 / 10 : ℚ) :: l) (wait_for_topup_complete s (i + 1) f)
    else
      some []

/-- `check_topup_and_wait_if_necessary`: read index 0 is `time_to_topup`,
read index 1 is `check_start`, and reads from index 2 on happen inside
`wait_for_topup_complete`. -/
def check_topup_and_wait_if_necessary (machine_mode : SynchrotronMode) (s : ℕ → ℚ)
    (end_countdown total_exposure_time ops_time : ℚ) (fuel : ℕ) : Option (List ℚ) :=
  let time_to_topup := s 0
  if in_decay_mode time_to_topup || !gating_permitted machine_mode then
    some []
  else
    let tot_run_time := total_exposure_time + ops_time
    let time_to_wait := if delay_to_avoid_topup tot_run_time time_to_topup then end_countdown else 0
    let check_start := s 1
    if check_start = COUNTDOWN_DURING_TOPUP then
      Option.map (fun l => time_to_wait :: l) (wait_for_topup_complete s 2 fuel)
    else
      some [time_to_wait]

/-- Concrete read stream for the top-up counterexample: the first read says
10 s to top-up, but by the post-sleep re-check the top-up has started
(reads 1 and 2 give 0) and clears at read 3. -/
def topupStream : ℕ → ℚ := fun n => if n = 0 then 10 else if n ≤ 2 then 0 else 5

/-- Concrete read stream for the top-up wait branch: 2 s to top-up at the
first read, inside the refill window on reads 1 and 2, cleared at read 3. -/
def topupStream2 : ℕ → ℚ := fun n => if n = 0 then 2 else if n ≤ 2 then 0 else 1

/-! ### The legacy fast grid scan plan

From `src/artemis/fast_grid_scan_plan.py`, `run_gridscan`.  We record the
sequence of externally visible effects as a trace; the pair's second
component is the exception the plan terminates with, if any.  The plan
first reads omega, then asserts it is within `OMEGA_TOLERANCE` of the
configured start angle and of zero; only then does it read the other
devices, deposit into ISPyB, notify zocalo run-start, and drive the scan
and the final moves. -/

namespace FGS

/-- Tolerance for how close omega must start to 0. -/
def OMEGA_TOLERANCE : ℚ := 1 / 10

inductive FAction where
  | readOmega
  | readHardware
  | storeGridScanInIspyb
  | runStartZocalo
  | setFgsParams
  | kickoffScan
  | completeScan
  | updateIspybEndStatus
  | runEndZocalo
  | waitForResultZocalo
  | moveOmega (v : ℚ)
  | waitSampleMotors
  | moveXyzToCentre
deriving DecidableEq, Repr

/-- Does this action command a device move (`bps.mv`)? -/
def FAction.isMove : FAction → Bool
  | FAction.moveOmega _ => true
  | FAction.moveXyzToCentre => true
  | _ => false

/-- `run_gridscan` of `fast_grid_scan_plan.py`, as the trace of effects it
emits given the omega reading and the configured omega start angle. -/
def run_gridscan (current_omega omega_start : ℚ) : List FAction × Option Err :=
  if ¬(|current_omega - omega_start| < OMEGA_TOLERANCE) then
    ([FAction.readOmega], some Err.assertionError)
  else if ¬(|current_omega| < OMEGA_TOLERANCE) then
    ([FAction.readOmega], some Err.assertionError)
  else
    ([FAction.readOmega, FAction.readHardware, FAction.storeGridScanInIspyb,
      FAction.runStartZocalo, FAction.setFgsParams, FAction.kickoffScan,
      FAction.completeScan, FAction.updateIspybEndStatus, FAction.runEndZocalo,
      FAction.waitForResultZocalo, FAction.moveOmega omega_start,
      FAction.waitSampleMotors, FAction.moveXyzToCentre], none)

end FGS

/-! ### The stepped grid scan plan

From `src/artemis/experiment_plans/stepped_grid_scan_plan.py`.  Device
readings are embedded as streams indexed by read number: `si n` is the
n-th read of `fgs_motors.scan_invalid` and `pc n` the n-th read of
`fgs_motors.position_counter` (the two are read together each iteration
of `wait_for_fgs_valid`). -/

namespace Stepped

inductive SAction where
  | setOmegaZero
  | readHardwareForIspyb
  | setSteppedGridScanParams
  | readScanValidity
  | sleepCheck
  | stageEiger
  | waitAllMoves
  | kickoffScan
  | completeScan
  | unstageEiger
  | setZStepsZero
  | setupZebraForFgs
  | readInitialXyz
  | waitForResultsA
  | setApertureFor (bbox : List ℤ)
  | moveXyz (p : Point3D)
  | setZebraShutterToManual
deriving DecidableEq, Repr

/-- The scan-invalid message raised by `wait_for_fgs_valid`. -/
def scanInvalidMsg : String := "Scan invalid - pin too long/short/bent and out of range"

/-- The `for _ in range(times_to_check)` loop of `wait_for_fgs_valid`:
each iteration reads scan_invalid and position_counter (read index `i`),
returns if the parameters are valid, else sleeps 0.1 s; when the loop is
exhausted a `WarningException` is raised. -/
def wait_for_fgs_valid_loop (si : ℕ → Bool) (pc : ℕ → ℤ) : ℕ → ℕ → List SAction × Option Err
  | 0, _ => ([], some (Err.warning scanInvalidMsg))
  | Nat.succ n, i =>
    if si i = false ∧ pc i = 0 then
      ([SAction.readScanValidity], none)
    else
      let r := wait_for_fgs_valid_loop si pc n (i + 1)
      (SAction.readScanValidity :: SAction.sleepCheck :: r.1, r.2)

/-- `wait_for_fgs_valid` with its default `timeout = 0.5`:
`times_to_check = int(timeout / SLEEP_PER_CHECK)` where `SLEEP_PER_CHECK = 0.1`. -/
def wait_for_fgs_valid (si : ℕ → Bool) (pc : ℕ → ℤ) (timeout : ℚ) : List SAction × Option Err :=
  wait_for_fgs_valid_loop si pc (Int.toNat ⌊timeout / (1 / 10)⌋) 0

/-- `run_gridscan` of `stepped_grid_scan_plan.py`: move omega to 0, read
hardware for ispyb, set the scan parameters, validate them, and only then
stage the detector and kick off the scan. -/
def run_gridscan (si : ℕ → Bool) (pc : ℕ → ℤ) : List SAction × Option Err :=
  let pre := [SAction.setOmegaZero, SAction.readHardwareForIspyb,
    SAction.setSteppedGridScanParams]
  let v := wait_for_fgs_valid si pc (1 / 2)
  match v.2 with
  | some e => (pre ++ v.1, some e)
  | none => (pre ++ v.1 ++ [SAction.stageEiger, SAction.waitAllMoves,
      SAction.kickoffScan, SAction.completeScan, SAction.unstageEiger,
      SAction.setZStepsZero], none)

end Stepped

/-! ### The composed gridscan plan and its tidy-up guarantee

From `get_plan` of `stepped_grid_scan_plan.py`:

```
@bpp.finalize_decorator(lambda: tidy_up_plans(stepped_grid_scan_composite))
@bpp.subs_decorator(subscriptions.ispyb_handler)
def run_gridscan_and_move_and_tidy(fgs_composite, params, comms):
    yield from run_gridscan_and_move(fgs_composite, params, comms)
```

and `tidy_up_plans`, which yields `set_zebra_shutter_to_manual(zebra)`.
Plans are embedded as a small syntax of primitive actions, sequencing and
bluesky's `finalize_decorator` (whose contract is try/finally: the
tidy-up plan runs on normal completion and on every exception of the
wrapped plan).  Execution takes an environment telling which primitive
actions raise; a raising action is still recorded in the trace (it was
issued), and the boolean says whether the whole plan completed without an
exception. -/

namespace PlanModel

open Stepped

inductive Plan where
  | skip
  | act (a : SAction)
  | seq (p q : Plan)
  | withFinalize (body tidy : Plan)

/-- Execute a plan: the trace of issued actions and whether it succeeded. -/
def runPlan (env : SAction → Bool) : Plan → List SAction × Bool
  | Plan.skip => ([], true)
  | Plan.act a => ([a], env a)
  | Plan.seq p q =>
    let r := runPlan env p
    if r.2 then
      let r2 := runPlan env q
      (r.1 ++ r2.1, r2.2)
    else r
  | Plan.withFinalize body tidy =>
    let r := runPlan env body
    let rt := runPlan env tidy
    (r.1 ++ rt.1, r.2 && rt.2)

/-- Build a straight-line plan from a list of actions. -/
def acts : List SAction → Plan
  | [] => Plan.skip
  | a :: rest => Plan.seq (Plan.act a) (acts rest)

/-- `tidy_up_plans`: resets the zebra shutter to manual mode. -/
def tidy_up_plans : Plan := Plan.act SAction.setZebraShutterToManual

/-- `run_gridscan_and_move`, phase by phase: initial position read, zebra
setup, the gridscan (setup, validation, acquisition), the wait for zocalo
results, the aperture change (only when a bounding box was returned), and
the final move. -/
def run_gridscan_and_move_plan (bbox : Option (List ℤ)) (target : Point3D) : Plan :=
  Plan.seq
    (acts [SAction.readInitialXyz, SAction.setupZebraForFgs, SAction.setOmegaZero,
      SAction.readHardwareForIspyb, SAction.setSteppedGridScanParams,
      SAction.readScanValidity, SAction.stageEiger, SAction.waitAllMoves,
      SAction.kickoffScan, SAction.completeScan, SAction.unstageEiger,
      SAction.setZStepsZero, SAction.waitForResultsA])
    (Plan.seq
      (match bbox with
        | some b => Plan.act (SAction.setApertureFor b)
        | none => Plan.skip)
      (Plan.act (SAction.moveXyz target)))

/-- `get_plan`: the gridscan-and-move plan wrapped in the tidy-up finalizer. -/
def get_plan (bbox : Option (List ℤ)) (target : Point3D) : Plan :=
  Plan.withFinalize (run_gridscan_and_move_plan bbox target) tidy_up_plans

/-- Syntactic check that a plan never issues the zebra-shutter tidy action. -/
def noShutterReset : Plan → Bool
  | Plan.skip => true
  | Plan.act a => decide (a ≠ SAction.setZebraShutterToManual)
  | Plan.seq p q => noShutterReset p && noShutterReset q
  | Plan.withFinalize p q => noShutterReset p && noShutterReset q

/-- Count of tidy-up invocations in a trace. -/
def countShutterReset (t : List SAction) : ℕ :=
  t.count SAction.setZebraShutterToManual

end PlanModel

/-! ### Result rendezvous (zocalo) and the caller's use of it

The zocalo handler's `wait_for_results` itself is not among the source
files (only its callers in `stepped_grid_scan_plan.run_gridscan_and_move`
and its system tests are), so it is modelled from the spec below.  The
caller `run_gridscan_and_move` is embedded from the source: it reads the
initial x/y/z, runs the gridscan, blocks on `wait_for_results(initial_xyz)`,
changes the aperture only when `bbox_size is not None`, and then moves the
sample motors to the returned centre. -/

namespace Zocalo

open Stepped

/-- The analysis outcome for a collection group, as reported by the
external service: either a centre plus bounding-box size, or an explicit
no-diffraction marker. -/
inductive ZOutcome where
  | noDiff
  | found (centre : Point3D) (bbox : List ℤ)
deriving DecidableEq, Repr

def noDiffractionComment : String := "Found no diffraction."

/-- Modelled from the spec: the zocalo handler's `wait_for_results`
(missing from the sources; only its tests and callers are present).  On
success with no diffraction found it returns the supplied fallback
position as the centroid and `None` for the bounding-box size, appending
exactly one no-diffraction note to the collection record's comment; with
diffraction found it returns the best centroid and its bounding box,
appending a candidate-audit comment.  The second component is the list of
comments appended to the group's collection record. -/
def wait_for_results (outcome : ZOutcome) (fallback_xyz : Point3D) :
    (Point3D × Option (List ℤ)) × List String :=
  match outcome with
  | ZOutcome.noDiff => ((fallback_xyz, none), [noDiffractionComment])
  | ZOutcome.found c b => ((c, some b), ["Crystal candidates recorded for audit"])

/-- `run_gridscan_and_move`, from the source: the emitted actions and the
comments appended to the collection record, given the analysis outcome
and the initial motor position.  The aperture change is issued only when
a bounding-box size was returned. -/
def run_gridscan_and_move (outcome : ZOutcome) (initial_xyz : Point3D) :
    List SAction × List String :=
  let r := wait_for_results outcome initial_xyz
  let xray_centre := r.1.1
  let bbox_size := r.1.2
  ([SAction.readInitialXyz, SAction.setupZebraForFgs, SAction.setOmegaZero,
    SAction.readHardwareForIspyb, SAction.setSteppedGridScanParams,
    SAction.readScanValidity, SAction.stageEiger, SAction.waitAllMoves,
    SAction.kickoffScan, SAction.completeScan, SAction.unstageEiger,
    SAction.setZStepsZero, SAction.waitForResultsA] ++
    (match bbox_size with
      | some b => [SAction.setApertureFor b]
      | none => []) ++
    [SAction.moveXyz xray_centre], r.2)

end Zocalo

/-! ### ISPyB callback event handling

From `src/hyperion/external_interaction/callbacks/ispyb_callback_base.py`,
`BaseISPyBCallback`.  The callback state carries the cache of descriptor
documents (a dict keyed by uid, embedded as an association list), the
stored ispyb parameters, and whether `self.ispyb` was initialised.  The
event handler asserts its preconditions, then looks the event's
descriptor uid up with `self.descriptors[doc["descriptor"]]` - a plain
subscript, which raises `KeyError` when the descriptor was never
received. -/

namespace Ispyb

/-- Plan-name constants (values are from `hyperion.parameters.constants`,
which is not among the sources; only their distinctness matters here). -/
def ISPYB_HARDWARE_READ_PLAN : String := "ispyb_reading_hardware"

def ISPYB_TRANSMISSION_FLUX_READ_PLAN : String := "ispyb_update_transmission_flux"

/-- The ispyb parameter fields written by `activity_gated_event`. -/
structure IspybParamsState where
  undulator_gap : Option ℚ
  synchrotron_mode : Option ℚ
  slit_gap_size_x : Option ℚ
  slit_gap_size_y : Option ℚ
  transmission_fraction : Option ℚ
  flux : Option ℚ
deriving DecidableEq, Repr

/-- The data payload fields of an event document that the handler reads. -/
structure EventData where
  undulator_current_gap : ℚ
  synchrotron_machine_status_synchrotron_mode : ℚ
  s4_slit_gaps_xgap : ℚ
  s4_slit_gaps_ygap : ℚ
  attenuator_actual_transmission : ℚ
  flux_flux_reading : ℚ
deriving DecidableEq, Repr

structure EventDoc where
  descriptor : String
  data : EventData
deriving DecidableEq, Repr

structure DescriptorDoc where
  uid : String
  name : Option String
deriving DecidableEq, Repr

/-- Dict lookup on the descriptor cache. -/
def lookupDescriptor (l : List (String × DescriptorDoc)) (k : String) : Option DescriptorDoc :=
  match l with
  | [] => none
  | (k0, d) :: rest => if k0 = k then some d else lookupDescriptor rest k

/-- Dict assignment `self.descriptors[doc["uid"]] = doc`. -/
def storeDescriptor (l : List (String × DescriptorDoc)) (d : DescriptorDoc) :
    List (String × DescriptorDoc) :=
  match l with
  | [] => [(d.uid, d)]
  | (k0, d0) :: rest => if k0 = d.uid then (k0, d) :: rest else (k0, d0) :: storeDescriptor rest d

structure CallbackState where
  descriptors : List (String × DescriptorDoc)
  params : Option IspybParamsState
  ispyb_initialised : Bool
  deposition_begun : Bool
deriving DecidableEq, Repr

/-- `activity_gated_descriptor`: caches the descriptor document by uid. -/
def activity_gated_descriptor (s : CallbackState) (doc : DescriptorDoc) : CallbackState :=
  { s with descriptors := storeDescriptor s.descriptors doc }

/-- `activity_gated_event`: asserts ispyb and params are initialised, looks
up the event's descriptor by subscript (KeyError when absent), then
updates the stored parameters according to the descriptor's name, and on
the transmission/flux reading begins the ispyb deposition. -/
def activity_gated_event (s : CallbackState) (doc : EventDoc) : Except Err CallbackState :=
  if s.ispyb_initialised = false then Except.error Err.assertionError
  else
    match s.params with
    | none => Except.error Err.assertionError
    | some p =>
      match lookupDescriptor s.descriptors doc.descriptor with
      | none => Except.error (Err.keyError doc.descriptor)
      | some event_descriptor =>
        let p1 :=
          if event_descriptor.name = some ISPYB_HARDWARE_READ_PLAN then
            { p with
              undulator_gap := some doc.data.undulator_current_gap
              synchrotron_mode := some doc.data.synchrotron_machine_status_synchrotron_mode
              slit_gap_size_x := some doc.data.s4_slit_gaps_xgap
              slit_gap_size_y := some doc.data.s4_slit_gaps_ygap }
          else p
        if event_descriptor.name = some ISPYB_TRANSMISSION_FLUX_READ_PLAN then
          Except.ok { s with
            params := some { p1 with
              transmission_fraction := some doc.data.attenuator_actual_transmission
              flux := some doc.data.flux_flux_reading }
            deposition_begun := true }
        else
          Except.ok { s with params := some p1 }

/-- An empty parameter record, for concrete instantiations. -/
def emptyParams : IspybParamsState :=
  { undulator_gap := none, synchrotron_mode := none, slit_gap_size_x := none
    slit_gap_size_y := none, transmission_fraction := none, flux := none }

/-- A callback state that has seen no descriptor documents. -/
def freshState : CallbackState :=
  { descriptors := [], params := some emptyParams
    ispyb_initialised := true, deposition_begun := false }

/-- A concrete event document whose descriptor uid was never received. -/
def orphanEvent : EventDoc :=
  { descriptor := "abc123"
    data := { undulator_current_gap := 0, synchrotron_machine_status_synchrotron_mode := 0
              s4_slit_gaps_xgap := 0, s4_slit_gaps_ygap := 0
              attenuator_actual_transmission := 0, flux_flux_reading := 0 } }

end Ispyb

/-! ### UDC move-to-default-state sequence

From `src/artemis/UDC_move_to_default_state.py`.  The device values are a
record of the axes the script reads or moves; the sequence emits a trace
of `print` calls, `bps.null()` markers and `bps.mv` batches (one batch
per `bps.mv` call, all axes in one batch moved concurrently), and returns
the resulting device state.  `check_temp` and `check_backpressure` print
when the reading exceeds its limit (the abort is only a `# TODO abort
here` comment in the source) and then fall through to `bps.null()`. -/

namespace UDC

inductive UAction where
  | printMsg (msg : String)
  | nullOp
  | mvBatch (targets : List (String × ℚ))
deriving DecidableEq, Repr

def UAction.isMv : UAction → Bool
  | UAction.mvBatch _ => true
  | _ => false

/-- Does this action move one of the beamstop axes? -/
def UAction.isBsMv : UAction → Bool
  | UAction.mvBatch l => l.any (fun p => p.1 = "bs.x" || p.1 = "bs.y" || p.1 = "bs.z")
  | _ => false

@[ext]
structure UDCState where
  scin_y : ℚ
  scin_z : ℚ
  mapt_x : ℚ
  mapt_y : ℚ
  mapt_z : ℚ
  sg_x : ℚ
  bs_x : ℚ
  bs_y : ℚ
  bs_z : ℚ
  fluo_pos : ℚ
  sgon_chi : ℚ
  sgon_x : ℚ
  sgon_y : ℚ
  sgon_z : ℚ
  sgon_phi : ℚ
  sgon_omega : ℚ
  gonp_x : ℚ
  gonp_z : ℚ
  cryo_course : ℚ
  cryo_fine : ℚ
  cryo_temp : ℚ
  cryo_backpress : ℚ

/-- Write one axis of the state.  Unknown names are ignored (never hit by
the embedded sequence). -/
def setAxis (s : UDCState) (name : String) (v : ℚ) : UDCState :=
  if name = "scin.y" then { s with scin_y := v }
  else if name = "scin.z" then { s with scin_z := v }
  else if name = "mapt.x" then { s with mapt_x := v }
  else if name = "mapt.y" then { s with mapt_y := v }
  else if name = "mapt.z" then { s with mapt_z := v }
  else if name = "sg.x" then { s with sg_x := v }
  else if name = "bs.x" then { s with bs_x := v }
  else if name = "bs.y" then { s with bs_y := v }
  else if name = "bs.z" then { s with bs_z := v }
  else if name = "fluo.pos" then { s with fluo_pos := v }
  else if name = "sgon.chi" then { s with sgon_chi := v }
  else if name = "sgon.x" then { s with sgon_x := v }
  else if name = "sgon.y" then { s with sgon_y := v }
  else if name = "sgon.z" then { s with sgon_z := v }
  else if name = "sgon.phi" then { s with sgon_phi := v }
  else if name = "sgon.omega" then { s with sgon_omega := v }
  else if name = "gonp.x" then { s with gonp_x := v }
  else if name = "gonp.z" then { s with gonp_z := v }
  else if name = "cryo.course" then { s with cryo_course := v }
  else if name = "cryo.fine" then { s with cryo_fine := v }
  else s

def applyBatch (s : UDCState) (batch : List (String × ℚ)) : UDCState :=
  batch.foldl (fun acc p => setAxis acc p.1 p.2) s

/-- Device constants: `fluo.OUT` and `cryo.IN` live on the device classes
(not in the sources); 0/1 stand in for them, and no theorem depends on
the values. -/
def fluoOUT : ℚ := 0

def cryoIN : ℚ := 1

/-- `make_scin_safe`: skip when the scintillator already reads safe,
otherwise move y (with mini-aperture x and scatterguard x) before z. -/
def make_scin_safe (s : UDCState) : List UAction × UDCState :=
  if s.scin_y < 0.016 ∧ s.scin_z < 0.1 then ([], s)
  else
    let b1 : List (String × ℚ) := [("scin.y", 0.015), ("mapt.x", -4.91), ("sg.x", -4.75)]
    let b2 : List (String × ℚ) := [("scin.z", 0.1)]
    ([UAction.mvBatch b1, UAction.mvBatch b2], applyBatch (applyBatch s b1) b2)

/-- `put_bs_in`: skip when the beamstop already reads in, otherwise move z
before y/x. -/
def put_bs_in (s : UDCState) : List UAction × UDCState :=
  if s.bs_z > 25 ∧ s.bs_y > 25 then ([], s)
  else
    let b1 : List (String × ℚ) := [("bs.z", 30)]
    let b2 : List (String × ℚ) := [("bs.y", 45), ("bs.x", 1.6)]
    ([UAction.mvBatch b1, UAction.mvBatch b2], applyBatch (applyBatch s b1) b2)

/-- `check_temp`: prints when the cryostream temperature exceeds 110 (the
abort is a TODO in the source) and always ends in `bps.null()`. -/
def check_temp (s : UDCState) : List UAction :=
  (if s.cryo_temp > 110 then [UAction.printMsg "temperature too high"] else []) ++
    [UAction.nullOp]

/-- `check_backpressure`: prints when the cryostream backpressure exceeds
0.1 (the abort is a TODO in the source) and always ends in `bps.null()`. -/
def check_backpressure (s : UDCState) : List UAction :=
  (if s.cryo_backpress > 0.1 then [UAction.printMsg "Backpressure too high"] else []) ++
    [UAction.nullOp]

def fluoBatch : List (String × ℚ) := [("fluo.pos", fluoOUT)]

def chiBatch : List (String × ℚ) := [("sgon.chi", 0)]

def smargonBatch : List (String × ℚ) :=
  [("sgon.x", 0), ("sgon.y", 0), ("sgon.z", 0), ("sgon.phi", 0), ("sgon.omega", 0),
    ("gonp.x", 0), ("gonp.z", 0)]

def maptZBatch : List (String × ℚ) := [("mapt.z", 15.8)]

def maptXYBatch : List (String × ℚ) := [("mapt.x", 2.564), ("mapt.y", 31.4)]

def cryoBatch : List (String × ℚ) := [("cryo.course", cryoIN), ("cryo.fine", cryoIN)]

/-- `move_to_default_UDC_state`: the checks, then the ordered move batches. -/
def move_to_default_UDC_state (s : UDCState) : List UAction × UDCState :=
  let tChecks := check_backpressure s ++ check_temp s
  let rScin := make_scin_safe s
  let s1 := applyBatch rScin.2 fluoBatch
  let s2 := applyBatch s1 chiBatch
  let s3 := applyBatch s2 smargonBatch
  let rBs := put_bs_in s3
  let s4 := applyBatch rBs.2 maptZBatch
  let s5 := applyBatch s4 maptXYBatch
  let s6 := applyBatch s5 cryoBatch
  (tChecks ++ rScin.1 ++
    [UAction.mvBatch fluoBatch, UAction.mvBatch chiBatch, UAction.mvBatch smargonBatch] ++
    rBs.1 ++
    [UAction.mvBatch maptZBatch, UAction.mvBatch maptXYBatch, UAction.mvBatch cryoBatch],
    s6)

/-- A state in which every axis already reads the value the sequence
targets (and the interlock readings are healthy). -/
def targetState : UDCState :=
  { scin_y := 0.015, scin_z := 0.1, mapt_x := 2.564, mapt_y := 31.4, mapt_z := 15.8
    sg_x := -4.75, bs_x := 1.6, bs_y := 45, bs_z := 30, fluo_pos := fluoOUT
    sgon_chi := 0, sgon_x := 0, sgon_y := 0, sgon_z := 0, sgon_phi := 0, sgon_omega := 0
    gonp_x := 0, gonp_z := 0, cryo_course := cryoIN, cryo_fine := cryoIN
    cryo_temp := 90, cryo_backpress := 0.05 }

/-- A state whose cryostream temperature reading exceeds the 110 limit. -/
def hotState : UDCState :=
  { targetState with cryo_temp := 120, scin_y := 5, scin_z := 5, bs_y := 0, bs_z := 0 }

end UDC

/-! ### Flattening of nested parameter dictionaries

From `src/artemis/parameters/internal_parameters/internal_parameters.py`,
`flatten_dict`.  A nested Python dict is embedded as an ordered
association list whose values are either leaves or sub-dicts (Python
dicts preserve insertion order); leaf values are embedded as integers.
The source loop keeps a local `items` dict, recursing into sub-dict
values with the *current* `items` as the parent context, and checks a
leaf key only against `items` and `parent_items` before inserting. -/

namespace Params

inductive PVal where
  | leaf (v : ℤ)
  | dict (entries : List (String × PVal))

/-- `k in d` on a flat dict. -/
def containsKey (l : List (String × ℤ)) (k : String) : Bool :=
  l.any (fun p => p.1 = k)

/-- `d[k] = v` on a flat dict: replace in place or append. -/
def updateEntry (l : List (String × ℤ)) (k : String) (v : ℤ) : List (String × ℤ) :=
  match l with
  | [] => [(k, v)]
  | (k0, v0) :: rest =>
    if k0 = k then (k0, v) :: rest else (k0, v0) :: updateEntry rest k v

/-- `d.update(d2)` on flat dicts. -/
def updateAll (l l2 : List (String × ℤ)) : List (String × ℤ) :=
  l2.foldl (fun acc p => updateEntry acc p.1 p.2) l

/-- `flatten_dict(d, parent_items)`: the extra `items` argument threads the
loop's accumulator; the top-level call passes `[]` for both. -/
def flatten_dict : List (String × PVal) → List (String × ℤ) → List (String × ℤ) →
    Except String (List (String × ℤ))
  | [], _, items => Except.ok items
  | (k, PVal.leaf v) :: rest, parent, items =>
    if containsKey items k || containsKey parent k then
      Except.error ("Duplicate keys " ++ k ++ " in input parameters!")
    else
      flatten_dict rest parent (items ++ [(k, v)])
  | (_, PVal.dict sub) :: rest, parent, items =>
    match flatten_dict sub items [] with
    | Except.error e => Except.error e
    | Except.ok flattened_subdict => flatten_dict rest parent (updateAll items flattened_subdict)

/-- The leaf key/value pairs of a nested dict, in traversal order. -/
def leaves : List (String × PVal) → List (String × ℤ)
  | [] => []
  | (k, PVal.leaf v) :: rest => (k, v) :: leaves rest
  | (_, PVal.dict sub) :: rest => leaves sub ++ leaves rest

/-- Every key occurring anywhere in a nested dict, in traversal order
(sub-dict keys included). -/
def allKeys : List (String × PVal) → List String
  | [] => []
  | (k, PVal.leaf _) :: rest => k :: allKeys rest
  | (k, PVal.dict sub) :: rest => k :: (allKeys sub ++ allKeys rest)

/-- The input on which duplicate detection fails: key `a` occurs as a
top-level leaf and again as a leaf nested two dict levels down. -/
def dupInput : List (String × PVal) :=
  [("a", PVal.leaf 1), ("b", PVal.dict [("c", PVal.dict [("a", PVal.leaf 2)])])]

/-- A nested input whose keys are all unique. -/
def uniqInput : List (String × PVal) :=
  [("a", PVal.leaf 1), ("b", PVal.dict [("c", PVal.leaf 2), ("d", PVal.leaf 3)])]

end Params

/-! ## Theorems -/

/-! ### Helper lemmas -/

theorem runPlan_act (env : Stepped.SAction → Bool) (a : Stepped.SAction) :
    PlanModel.runPlan env (PlanModel.Plan.act a) = ([a], env a) := rfl

theorem runPlan_withFinalize (env : Stepped.SAction → Bool) (p q : PlanModel.Plan) :
    PlanModel.runPlan env (PlanModel.Plan.withFinalize p q) =
      ((PlanModel.runPlan env p).1 ++ (PlanModel.runPlan env q).1,
        (PlanModel.runPlan env p).2 && (PlanModel.runPlan env q).2) := rfl

theorem countShutterReset_eq_zero (p : PlanModel.Plan)
    (hp : PlanModel.noShutterReset p = true) (env : Stepped.SAction → Bool) :
    PlanModel.countShutterReset (PlanModel.runPlan env p).1 = 0 := by
  induction p with
  | skip => simp [PlanModel.runPlan, PlanModel.countShutterReset]
  | act a =>
    simp only [PlanModel.noShutterReset, decide_eq_true_eq] at hp
    simp [PlanModel.runPlan, PlanModel.countShutterReset, List.count_singleton, hp]
  | seq p q ihp ihq =>
    simp only [PlanModel.noShutterReset, Bool.and_eq_true] at hp
    have h1 := ihp hp.1
    have h2 := ihq hp.2
    simp only [PlanModel.runPlan]
    by_cases h : (PlanModel.runPlan env p).2
    · simp only [h, if_true]
      simp only [PlanModel.countShutterReset, List.count_append] at *
      omega
    · simp [h, h1]
  | withFinalize p q ihp ihq =>
    simp only [PlanModel.noShutterReset, Bool.and_eq_true] at hp
    have h1 := ihp hp.1
    have h2 := ihq hp.2
    simp only [PlanModel.runPlan]
    simp only [PlanModel.countShutterReset, List.count_append] at *
    omega

theorem noShutterReset_body (bbox : Option (List ℤ)) (target : Point3D) :
    PlanModel.noShutterReset (PlanModel.run_gridscan_and_move_plan bbox target) = true := by
  cases bbox <;>
    simp [PlanModel.run_gridscan_and_move_plan, PlanModel.acts, PlanModel.noShutterReset]

theorem applyBatch_nil (s : UDC.UDCState) : UDC.applyBatch s [] = s := rfl

theorem applyBatch_cons (s : UDC.UDCState) (k : String) (v : ℚ) (rest : List (String × ℚ)) :
    UDC.applyBatch s ((k, v) :: rest) = UDC.applyBatch (UDC.setAxis s k v) rest := rfl

theorem applyBatch_fluo (s : UDC.UDCState) :
    UDC.applyBatch s UDC.fluoBatch = { s with fluo_pos := UDC.fluoOUT } := by
  simp [UDC.fluoBatch, applyBatch_cons, applyBatch_nil, UDC.setAxis]

theorem applyBatch_chi (s : UDC.UDCState) :
    UDC.applyBatch s UDC.chiBatch = { s with sgon_chi := 0 } := by
  simp [UDC.chiBatch, applyBatch_cons, applyBatch_nil, UDC.setAxis]

theorem applyBatch_smargon (s : UDC.UDCState) :
    UDC.applyBatch s UDC.smargonBatch =
      { s with sgon_x := 0, sgon_y := 0, sgon_z := 0, sgon_phi := 0
               sgon_omega := 0, gonp_x := 0, gonp_z := 0 } := by
  simp [UDC.smargonBatch, applyBatch_cons, applyBatch_nil, UDC.setAxis]

theorem applyBatch_maptZ (s : UDC.UDCState) :
    UDC.applyBatch s UDC.maptZBatch = { s with mapt_z := 15.8 } := by
  simp [UDC.maptZBatch, applyBatch_cons, applyBatch_nil, UDC.setAxis]

theorem applyBatch_maptXY (s : UDC.UDCState) :
    UDC.applyBatch s UDC.maptXYBatch = { s with mapt_x := 2.564, mapt_y := 31.4 } := by
  simp [UDC.maptXYBatch, applyBatch_cons, applyBatch_nil, UDC.setAxis]

theorem applyBatch_cryo (s : UDC.UDCState) :
    UDC.applyBatch s UDC.cryoBatch =
      { s with cryo_course := UDC.cryoIN, cryo_fine := UDC.cryoIN } := by
  simp [UDC.cryoBatch, applyBatch_cons, applyBatch_nil, UDC.setAxis]

theorem applyBatch_scin1 (s : UDC.UDCState) (v1 v2 v3 : ℚ) :
    UDC.applyBatch s [("scin.y", v1), ("mapt.x", v2), ("sg.x", v3)] =
      { s with scin_y := v1, mapt_x := v2, sg_x := v3 } := by
  simp [applyBatch_cons, applyBatch_nil, UDC.setAxis]

theorem applyBatch_scin2 (s : UDC.UDCState) (v : ℚ) :
    UDC.applyBatch s [("scin.z", v)] = { s with scin_z := v } := by
  simp [applyBatch_cons, applyBatch_nil, UDC.setAxis]

theorem applyBatch_bs1 (s : UDC.UDCState) (v : ℚ) :
    UDC.applyBatch s [("bs.z", v)] = { s with bs_z := v } := by
  simp [applyBatch_cons, applyBatch_nil, UDC.setAxis]

theorem applyBatch_bs2 (s : UDC.UDCState) (v1 v2 : ℚ) :
    UDC.applyBatch s [("bs.y", v1), ("bs.x", v2)] =
      { s with bs_y := v1, bs_x := v2 } := by
  simp [applyBatch_cons, applyBatch_nil, UDC.setAxis]

theorem isBsMv_print (msg : String) : UDC.UAction.isBsMv (UDC.UAction.printMsg msg) = false := rfl

theorem isBsMv_null : UDC.UAction.isBsMv UDC.UAction.nullOp = false := rfl

theorem isBsMv_fluo : UDC.UAction.isBsMv (UDC.UAction.mvBatch UDC.fluoBatch) = false := rfl

theorem isBsMv_chi : UDC.UAction.isBsMv (UDC.UAction.mvBatch UDC.chiBatch) = false := rfl

theorem isBsMv_smargon : UDC.UAction.isBsMv (UDC.UAction.mvBatch UDC.smargonBatch) = false := rfl

theorem isBsMv_maptZ : UDC.UAction.isBsMv (UDC.UAction.mvBatch UDC.maptZBatch) = false := rfl

theorem isBsMv_maptXY : UDC.UAction.isBsMv (UDC.UAction.mvBatch UDC.maptXYBatch) = false := rfl

theorem isBsMv_cryo : UDC.UAction.isBsMv (UDC.UAction.mvBatch UDC.cryoBatch) = false := rfl

theorem isBsMv_scin1 (v1 v2 v3 : ℚ) :
    UDC.UAction.isBsMv (UDC.UAction.mvBatch [("scin.y", v1), ("mapt.x", v2), ("sg.x", v3)]) =
      false := rfl

theorem isBsMv_scin2 (v : ℚ) :
    UDC.UAction.isBsMv (UDC.UAction.mvBatch [("scin.z", v)]) = false := rfl

theorem isBsMv_bs1 (v : ℚ) :
    UDC.UAction.isBsMv (UDC.UAction.mvBatch [("bs.z", v)]) = true := rfl

theorem isBsMv_bs2 (v1 v2 : ℚ) :
    UDC.UAction.isBsMv (UDC.UAction.mvBatch [("bs.y", v1), ("bs.x", v2)]) = true := rfl

theorem countP_isBsMv_ite_print (c : Prop) [Decidable c] (msg : String) :
    List.countP (fun a => UDC.UAction.isBsMv a)
      (if c then [UDC.UAction.printMsg msg] else []) = 0 := by
  split_ifs <;> simp [UDC.UAction.isBsMv]

/-- One run of the default-state sequence, field by field: the scintillator
fields move only when their guard fails, the beamstop fields only when its
guard fails, every other commanded axis ends at its constant target, and
the cryostream readings are untouched. -/
theorem move_to_default_state_fields (s : UDC.UDCState) :
    (UDC.move_to_default_UDC_state s).2 =
      { scin_y := if s.scin_y < 2 / 125 ∧ s.scin_z < 1 / 10 then s.scin_y else 3 / 200
        scin_z := if s.scin_y < 2 / 125 ∧ s.scin_z < 1 / 10 then s.scin_z else 1 / 10
        mapt_x := 641 / 250
        mapt_y := 157 / 5
        mapt_z := 79 / 5
        sg_x := if s.scin_y < 2 / 125 ∧ s.scin_z < 1 / 10 then s.sg_x else -(19 / 4)
        bs_x := if 25 < s.bs_z ∧ 25 < s.bs_y then s.bs_x else 8 / 5
        bs_y := if 25 < s.bs_z ∧ 25 < s.bs_y then s.bs_y else 45
        bs_z := if 25 < s.bs_z ∧ 25 < s.bs_y then s.bs_z else 30
        fluo_pos := 0
        sgon_chi := 0
        sgon_x := 0
        sgon_y := 0
        sgon_z := 0
        sgon_phi := 0
        sgon_omega := 0
        gonp_x := 0
        gonp_z := 0
        cryo_course := 1
        cryo_fine := 1
        cryo_temp := s.cryo_temp
        cryo_backpress := s.cryo_backpress } := by
  by_cases h1 : s.scin_y < 2 / 125 ∧ s.scin_z < 1 / 10 <;>
    by_cases h2 : 25 < s.bs_z ∧ 25 < s.bs_y <;>
      norm_num [UDC.move_to_default_UDC_state, UDC.make_scin_safe, UDC.put_bs_in,
        applyBatch_fluo, applyBatch_chi, applyBatch_smargon, applyBatch_maptZ,
        applyBatch_maptXY, applyBatch_cryo, applyBatch_scin1, applyBatch_scin2,
        applyBatch_bs1, applyBatch_bs2, UDC.fluoOUT, UDC.cryoIN, h1, h2]

/-- One run of the default-state sequence issues the two beamstop move
batches exactly when the beamstop guard fails, and no other batch touches
a beamstop axis. -/
theorem move_to_default_bs_moves (s : UDC.UDCState) :
    ((UDC.move_to_default_UDC_state s).1.countP (fun a => UDC.UAction.isBsMv a)) =
      if 25 < s.bs_z ∧ 25 < s.bs_y then 0 else 2 := by
  by_cases h1 : s.scin_y < 2 / 125 ∧ s.scin_z < 1 / 10 <;>
    by_cases h2 : 25 < s.bs_z ∧ 25 < s.bs_y <;>
      norm_num [UDC.move_to_default_UDC_state, UDC.make_scin_safe, UDC.put_bs_in,
        UDC.check_temp, UDC.check_backpressure,
        applyBatch_fluo, applyBatch_chi, applyBatch_smargon, applyBatch_maptZ,
        applyBatch_maptXY, applyBatch_cryo, applyBatch_scin1, applyBatch_scin2,
        applyBatch_bs1, applyBatch_bs2, UDC.fluoOUT, UDC.cryoIN,
        isBsMv_print, isBsMv_null, isBsMv_fluo, isBsMv_chi, isBsMv_smargon,
        isBsMv_maptZ, isBsMv_maptXY, isBsMv_cryo, isBsMv_scin1, isBsMv_scin2,
        isBsMv_bs1, isBsMv_bs2, countP_isBsMv_ite_print,
        List.countP_append, List.countP_cons, List.countP_nil, h1, h2]

theorem wait_for_topup_complete_spec (s : ℕ → ℚ) (k : ℕ) :
    ∀ (i fuel : ℕ), k < fuel → (∀ j, j < k → s (i + j) = 0) → s (i + k) ≠ 0 →
    wait_for_topup_complete s i fuel = some (List.replicate k (1 / 10 : ℚ)) := by
  induction k with
  | zero =>
    intro i fuel hfuel hz hnz
    match fuel, hfuel with
    | Nat.succ f, _ =>
      have : ¬s i = COUNTDOWN_DURING_TOPUP := by
        simpa [COUNTDOWN_DURING_TOPUP] using hnz
      simp [wait_for_topup_complete, this]
  | succ k ih =>
    intro i fuel hfuel hz hnz
    match fuel, hfuel with
    | Nat.succ f, hfuel =>
      have h0 : s i = COUNTDOWN_DURING_TOPUP := by
        simpa [COUNTDOWN_DURING_TOPUP] using hz 0 (Nat.succ_pos k)
      have hz' : ∀ j, j < k → s (i + 1 + j) = 0 := by
        intro j hj
        have := hz (j + 1) (by omega)
        simpa [Nat.add_assoc, Nat.add_comm 1 j] using this
      have hnz' : s (i + 1 + k) ≠ 0 := by
        have : i + 1 + k = i + (k + 1) := by omega
        rw [this]
        exact hnz
      have := ih (i + 1) f (by omega) hz' hnz'
      simp [wait_for_topup_complete, h0, this, List.replicate_succ]

theorem containsKey_iff (l : List (String × ℤ)) (k : String) :
    Params.containsKey l k = true ↔ k ∈ l.map Prod.fst := by
  simp [Params.containsKey, List.any_eq_true, List.mem_map]

theorem containsKey_false_iff (l : List (String × ℤ)) (k : String) :
    Params.containsKey l k = false ↔ k ∉ l.map Prod.fst := by
  rw [Bool.eq_false_iff, Ne, containsKey_iff]

theorem containsKey_append (l1 l2 : List (String × ℤ)) (k : String) :
    Params.containsKey (l1 ++ l2) k =
      (Params.containsKey l1 k || Params.containsKey l2 k) := by
  simp [Params.containsKey, List.any_append]

theorem updateEntry_append (items : List (String × ℤ)) (k : String) (v : ℤ)
    (h : Params.containsKey items k = false) :
    Params.updateEntry items k v = items ++ [(k, v)] := by
  induction items with
  | nil => rfl
  | cons p t ih =>
    obtain ⟨k0, v0⟩ := p
    simp only [Params.containsKey, List.any_cons, Bool.or_eq_false_iff,
      decide_eq_false_iff_not] at h
    rw [Params.updateEntry, if_neg h.1, ih h.2]
    simp

theorem updateAll_append (l2 : List (String × ℤ)) : ∀ (items : List (String × ℤ)),
    (∀ k, k ∈ l2.map Prod.fst → Params.containsKey items k = false) →
    (l2.map Prod.fst).Nodup →
    Params.updateAll items l2 = items ++ l2 := by
  induction l2 with
  | nil =>
    intro items _ _
    simp [Params.updateAll]
  | cons p t ih =>
    intro items habs hnd
    obtain ⟨k0, v0⟩ := p
    have h1 : Params.containsKey items k0 = false := habs k0 (by simp)
    have hstep : Params.updateAll items ((k0, v0) :: t) =
        Params.updateAll (items ++ [(k0, v0)]) t := by
      simp [Params.updateAll, updateEntry_append items k0 v0 h1]
    simp only [List.map_cons, List.nodup_cons] at hnd
    rw [hstep, ih (items ++ [(k0, v0)])]
    · simp
    · intro k hk
      have hne : ¬k0 = k := fun he => hnd.1 (he ▸ hk)
      rw [containsKey_append, habs k (by simp [hk])]
      simp [Params.containsKey, hne]
    · exact hnd.2

theorem leaves_keys_sublist (l : List (String × Params.PVal)) :
    ((Params.leaves l).map Prod.fst).Sublist (Params.allKeys l) := by
  induction l using Params.leaves.induct with
  | case1 => simp [Params.leaves, Params.allKeys]
  | case2 k v rest ih =>
    simp only [Params.leaves, Params.allKeys, List.map_cons]
    exact ih.cons₂ k
  | case3 k sub rest ih1 ih2 =>
    simp only [Params.leaves, Params.allKeys, List.map_append]
    exact (ih1.append ih2).cons k

theorem flatten_dict_ok_general (l : List (String × Params.PVal))
    (parent items : List (String × ℤ)) :
    (Params.allKeys l).Nodup →
    (∀ k, k ∈ Params.allKeys l → Params.containsKey items k = false) →
    (∀ k, k ∈ Params.allKeys l → Params.containsKey parent k = false) →
    Params.flatten_dict l parent items = Except.ok (items ++ Params.leaves l) := by
  induction l, parent, items using Params.flatten_dict.induct with
  | case1 parent items =>
    intro _ _ _
    simp [Params.flatten_dict, Params.leaves]
  | case2 k v rest parent items hdup =>
    intro _ hitems hparent
    exfalso
    have hk : k ∈ Params.allKeys ((k, Params.PVal.leaf v) :: rest) := by
      simp [Params.allKeys]
    rw [hitems k hk, hparent k hk] at hdup
    simp at hdup
  | case3 k v rest parent items hfresh ih =>
    intro hnd hitems hparent
    have hkeys : Params.allKeys ((k, Params.PVal.leaf v) :: rest) =
        k :: Params.allKeys rest := by
      simp [Params.allKeys]
    rw [hkeys] at hnd hitems hparent
    have hstep : Params.flatten_dict ((k, Params.PVal.leaf v) :: rest) parent items =
        Params.flatten_dict rest parent (items ++ [(k, v)]) := by
      simp only [Params.flatten_dict]
      rw [if_neg hfresh]
    rw [hstep, Params.leaves]
    have hass : items ++ (k, v) :: Params.leaves rest =
        (items ++ [(k, v)]) ++ Params.leaves rest := by simp
    rw [hass]
    apply ih hnd.of_cons
    · intro k' hk'
      have hne : ¬k = k' := by
        intro he
        exact (List.nodup_cons.mp hnd).1 (he ▸ hk')
      rw [containsKey_append, hitems k' (List.mem_cons_of_mem k hk')]
      simp [Params.containsKey, hne]
    · intro k' hk'
      exact hparent k' (List.mem_cons_of_mem k hk')
  | case4 k sub rest parent items e herr ih_sub =>
    intro hnd hitems hparent
    exfalso
    have hkeys : Params.allKeys ((k, Params.PVal.dict sub) :: rest) =
        k :: (Params.allKeys sub ++ Params.allKeys rest) := by
      simp [Params.allKeys]
    rw [hkeys] at hnd hitems hparent
    have hok := ih_sub ((hnd.of_cons).of_append_left)
      (fun _ _ => rfl)
      (fun k' hk' => hitems k' (List.mem_cons_of_mem k (List.mem_append_left _ hk')))
    rw [herr] at hok
    exact Except.noConfusion hok
  | case5 k sub rest parent items fl hok ih_sub ih_rest =>
    intro hnd hitems hparent
    have hkeys : Params.allKeys ((k, Params.PVal.dict sub) :: rest) =
        k :: (Params.allKeys sub ++ Params.allKeys rest) := by
      simp [Params.allKeys]
    rw [hkeys] at hnd hitems hparent
    have hnd' := hnd.of_cons
    have hsub := ih_sub (hnd'.of_append_left)
      (fun _ _ => rfl)
      (fun k' hk' => hitems k' (List.mem_cons_of_mem k (List.mem_append_left _ hk')))
    rw [hok] at hsub
    have hfl : fl = Params.leaves sub := by
      simp only [List.nil_append] at hsub
      exact Except.ok.inj hsub
    subst hfl
    have hdisj : ∀ k', k' ∈ Params.allKeys sub → k' ∉ Params.allKeys rest := by
      intro k' h1 h2
      exact (List.disjoint_of_nodup_append hnd') h1 h2
    have hupd : Params.updateAll items (Params.leaves sub) =
        items ++ Params.leaves sub := by
      apply updateAll_append
      · intro k' hk'
        exact hitems k' (List.mem_cons_of_mem k
          (List.mem_append_left _ ((leaves_keys_sublist sub).subset hk')))
      · exact hnd'.of_append_left.sublist (leaves_keys_sublist sub)
    have hstep : Params.flatten_dict ((k, Params.PVal.dict sub) :: rest) parent items =
        Params.flatten_dict rest parent (Params.updateAll items (Params.leaves sub)) := by
      simp only [Params.flatten_dict, hok]
    rw [hupd] at ih_rest
    rw [hstep, hupd, Params.leaves]
    have hass : items ++ (Params.leaves sub ++ Params.leaves rest) =
        (items ++ Params.leaves sub) ++ Params.leaves rest := by simp
    rw [hass]
    apply ih_rest (hnd'.of_append_right)
    · intro k' hk'
      have h1 : Params.containsKey items k' = false :=
        hitems k' (List.mem_cons_of_mem k (List.mem_append_right _ hk'))
      have h2 : Params.containsKey (Params.leaves sub) k' = false := by
        rw [containsKey_false_iff]
        intro hmem
        exact hdisj k' ((leaves_keys_sublist sub).subset hmem) hk'
      rw [containsKey_append, h1, h2]
      rfl
    · intro k' hk'
      exact hparent k' (List.mem_cons_of_mem k (List.mem_append_right _ hk'))

/-! ### C1: the tidy-up plan runs exactly once on every exit path -/

/-- C1: for every execution of the plan returned by `get_plan` - whatever
subset of the primitive actions raises, i.e. whether the plan completes
normally or raises in any phase (setup, validation, acquisition, result
wait, aperture change or final move) - the tidy-up plan that resets the
zebra shutter to manual mode is invoked exactly once, and after every
other issued action. -/
theorem tidy_up_runs_exactly_once (env : Stepped.SAction → Bool)
    (bbox : Option (List ℤ)) (target : Point3D) :
    PlanModel.countShutterReset (PlanModel.runPlan env (PlanModel.get_plan bbox target)).1 = 1 ∧
    (PlanModel.runPlan env (PlanModel.get_plan bbox target)).1.getLast? =
      some Stepped.SAction.setZebraShutterToManual := by
  have hbody := countShutterReset_eq_zero (PlanModel.run_gridscan_and_move_plan bbox target)
    (noShutterReset_body bbox target) env
  have hfin : (PlanModel.runPlan env (PlanModel.get_plan bbox target)).1 =
      (PlanModel.runPlan env (PlanModel.run_gridscan_and_move_plan bbox target)).1 ++
        [Stepped.SAction.setZebraShutterToManual] := by
    rw [PlanModel.get_plan, runPlan_withFinalize, PlanModel.tidy_up_plans, runPlan_act]
  rw [hfin]
  constructor
  · simp only [PlanModel.countShutterReset, List.count_append] at *
    simp [hbody, List.count_singleton]
  · rw [List.getLast?_concat]

/-! ### C4: the top-up gate -/

/-- C4 counterexample: a call in which the total operation time (5 s) is
within the refill countdown (10 s), decay mode is off and the machine
mode is allowed, yet the gate does not proceed immediately: the top-up
starts between the first and second countdown reads, so the gate sleeps
a further 0.1 s polling, for a positive total delay. -/
theorem topup_pass_branch_still_waits :
    topupStream 0 ≠ DECAY_MODE_COUNTDOWN ∧
    SynchrotronMode.USER ∈ ALLOWED_MODES ∧
    (5 : ℚ) + 0 ≤ topupStream 0 ∧
    check_topup_and_wait_if_necessary SynchrotronMode.USER topupStream 20 5 0 10 =
      some [0, 1 / 10] ∧
    (([0, 1 / 10] : List ℚ).sum ≠ 0) := by
  refine ⟨by norm_num [topupStream, DECAY_MODE_COUNTDOWN],
    by norm_num [ALLOWED_MODES], by norm_num [topupStream], ?_, by norm_num⟩
  norm_num [check_topup_and_wait_if_necessary, topupStream, wait_for_topup_complete,
    in_decay_mode, gating_permitted, delay_to_avoid_topup, DECAY_MODE_COUNTDOWN,
    COUNTDOWN_DURING_TOPUP, ALLOWED_MODES]

/-- C4 (amended): the gate proceeds with zero sleeps when the countdown
reads the decay sentinel or the mode is not allowed; otherwise it sleeps
exactly once - for the end-of-refill countdown when the total time
exceeds the refill countdown, else for 0 seconds - and then re-reads the
countdown; while that re-read (and each subsequent read) is 0 it polls at
a fixed 0.1 s interval until the countdown clears.  It never cancels:
the result is always `some` sleep list, never an error. -/
theorem check_topup_gate_characterisation (mode : SynchrotronMode) (s : ℕ → ℚ)
    (endC texp tops : ℚ) (k fuel : ℕ) (hfuel : k < fuel)
    (hz : ∀ j, j < k → s (2 + j) = 0) (hnz : s (2 + k) ≠ 0) :
    check_topup_and_wait_if_necessary mode s endC texp tops fuel =
      some (if s 0 = DECAY_MODE_COUNTDOWN ∨ mode ∉ ALLOWED_MODES then []
        else (if texp + tops > s 0 then endC else 0) ::
          (if s 1 = 0 then List.replicate k (1 / 10 : ℚ) else [])) := by
  by_cases h1 : s 0 = DECAY_MODE_COUNTDOWN
  · simp [check_topup_and_wait_if_necessary, in_decay_mode, h1]
  · by_cases h2 : mode ∈ ALLOWED_MODES
    · have hpoll := wait_for_topup_complete_spec s k 2 fuel hfuel hz hnz
      by_cases h4 : s 1 = 0
      · simp [check_topup_and_wait_if_necessary, in_decay_mode, gating_permitted,
          delay_to_avoid_topup, COUNTDOWN_DURING_TOPUP, h1, h2, h4, hpoll]
      · simp [check_topup_and_wait_if_necessary, in_decay_mode, gating_permitted,
          delay_to_avoid_topup, COUNTDOWN_DURING_TOPUP, h1, h2, h4]
    · simp [check_topup_and_wait_if_necessary, in_decay_mode, gating_permitted, h1, h2]

/-- C4 witness: the wait branch at concrete inputs - 10 s of work against
a 2 s countdown sleeps for the 7 s end-of-refill countdown and then polls
once. -/
theorem check_topup_gate_characterisation_witness :
    check_topup_and_wait_if_necessary SynchrotronMode.USER topupStream2 7 10 0 2 =
      some [7, 1 / 10] := by
  have h := check_topup_gate_characterisation SynchrotronMode.USER topupStream2 7 10 0 1 2
    (by norm_num) (by intro j hj; interval_cases j; norm_num [topupStream2])
    (by norm_num [topupStream2])
  rw [h]
  norm_num [topupStream2, DECAY_MODE_COUNTDOWN, ALLOWED_MODES]

/-! ### C8: aperture classification from the bounding-box size -/

/-- C8: `set_aperture_for_bbox_size` selects the MEDIUM (smaller) aperture
exactly when the relevant bounding dimension `bbox_size[0]` is below the
threshold of 2, otherwise the LARGE aperture; in particular `[1,1,1]`
selects MEDIUM and `[3,1,1]` selects LARGE. -/
theorem aperture_selection_threshold (b0 : ℤ) (rest : List ℤ) :
    (set_aperture_for_bbox_size (b0 :: rest) = some Aperture.MEDIUM ↔ b0 < 2) ∧
    (set_aperture_for_bbox_size (b0 :: rest) = some Aperture.LARGE ↔ ¬b0 < 2) ∧
    set_aperture_for_bbox_size [1, 1, 1] = some Aperture.MEDIUM ∧
    set_aperture_for_bbox_size [3, 1, 1] = some Aperture.LARGE := by
  constructor
  · by_cases h : b0 < 2 <;> simp [set_aperture_for_bbox_size, h]
  refine ⟨?_, by norm_num [set_aperture_for_bbox_size], by norm_num [set_aperture_for_bbox_size]⟩
  by_cases h : b0 < 2 <;> simp [set_aperture_for_bbox_size, h]

/-! ### C10: the omega assertion guards every effect of the legacy plan -/

/-- C10: when the omega reading differs from the configured start angle by
0.1 or more, or from zero by 0.1 or more, `run_gridscan` of
`fast_grid_scan_plan.py` terminates with an AssertionError having emitted
no device move, no ISPyB deposition and no zocalo run-start submission. -/
theorem omega_assertion_guards_all_effects (omega omega_start : ℚ)
    (h : FGS.OMEGA_TOLERANCE ≤ |omega - omega_start| ∨ FGS.OMEGA_TOLERANCE ≤ |omega|) :
    (FGS.run_gridscan omega omega_start).2 = some Err.assertionError ∧
    ∀ a ∈ (FGS.run_gridscan omega omega_start).1,
      FGS.FAction.isMove a = false ∧ a ≠ FGS.FAction.storeGridScanInIspyb ∧
      a ≠ FGS.FAction.runStartZocalo := by
  have htrace : FGS.run_gridscan omega omega_start =
      ([FGS.FAction.readOmega], some Err.assertionError) := by
    rcases h with h | h
    · simp [FGS.run_gridscan, not_lt.mpr h]
    · by_cases h2 : |omega - omega_start| < FGS.OMEGA_TOLERANCE
      · simp [FGS.run_gridscan, h2, not_lt.mpr h]
      · simp [FGS.run_gridscan, h2]
  rw [htrace]
  refine ⟨rfl, ?_⟩
  intro a ha
  simp only [List.mem_singleton] at ha
  subst ha
  simp [FGS.FAction.isMove]

/-- C10 witness: an omega reading of 1 against a start angle of 0. -/
theorem omega_assertion_guards_all_effects_witness :
    (FGS.OMEGA_TOLERANCE ≤ |(1 : ℚ) - 0| ∨ FGS.OMEGA_TOLERANCE ≤ |(1 : ℚ)|) ∧
    (FGS.run_gridscan 1 0).2 = some Err.assertionError :=
  ⟨Or.inl (by norm_num [FGS.OMEGA_TOLERANCE]),
    (omega_assertion_guards_all_effects 1 0
      (Or.inl (by norm_num [FGS.OMEGA_TOLERANCE]))).1⟩

/-! ### C2: the pre-flight interlock checks do not abort -/

/-- C2: at a state whose cryostream temperature reads 120 (above the 110
limit) the temperature check only prints its complaint (the abort is a
`# TODO abort here` comment in the source) and the sequence goes on to
issue all ten of its move batches - it does not abort before moving, as
the claim, the module's own docstring ("no point continuing if these
fail") and the `#basic checks, abort if fail` comment all require. -/
theorem failed_interlock_does_not_abort :
    UDC.hotState.cryo_temp > 110 ∧
    UDC.UAction.printMsg "temperature too high" ∈ (UDC.move_to_default_UDC_state UDC.hotState).1 ∧
    ((UDC.move_to_default_UDC_state UDC.hotState).1.countP
      (fun a => UDC.UAction.isMv a)) = 10 := by
  refine ⟨by norm_num [UDC.hotState, UDC.targetState], ?_, ?_⟩ <;>
    norm_num [UDC.move_to_default_UDC_state, UDC.hotState, UDC.targetState,
      UDC.make_scin_safe, UDC.put_bs_in, UDC.check_temp, UDC.check_backpressure,
      UDC.UAction.isMv, List.countP, List.countP.go,
      applyBatch_fluo, applyBatch_chi, applyBatch_smargon, applyBatch_maptZ,
      applyBatch_maptXY, applyBatch_cryo, applyBatch_scin1, applyBatch_scin2,
      applyBatch_bs1, applyBatch_bs2]

/-! ### C3: re-running the default-state sequence -/

/-- C3 counterexample: at the state where every axis already reads the
value the sequence targets, the sequence still emits eight move batches
(the unconditional ones, plus the scintillator batch, whose guard demands
`scin.z < 0.1` while the target is exactly 0.1), and it maps the target
state to itself - so the second of two successive runs, which starts at
the target state, also emits eight move batches rather than zero. -/
theorem sequencer_at_target_emits_moves :
    (UDC.move_to_default_UDC_state UDC.targetState).2 = UDC.targetState ∧
    ((UDC.move_to_default_UDC_state UDC.targetState).1.countP
      (fun a => UDC.UAction.isMv a)) = 8 := by
  constructor
  · norm_num [UDC.move_to_default_UDC_state, UDC.targetState, UDC.make_scin_safe,
      UDC.put_bs_in, applyBatch_fluo, applyBatch_chi, applyBatch_smargon,
      applyBatch_maptZ, applyBatch_maptXY, applyBatch_cryo, applyBatch_scin1,
      applyBatch_scin2, applyBatch_bs1, applyBatch_bs2, UDC.fluoOUT, UDC.cryoIN]
  · norm_num [UDC.move_to_default_UDC_state, UDC.targetState, UDC.make_scin_safe,
      UDC.put_bs_in, UDC.check_temp, UDC.check_backpressure, UDC.UAction.isMv,
      List.countP, List.countP.go,
      applyBatch_fluo, applyBatch_chi, applyBatch_smargon, applyBatch_maptZ,
      applyBatch_maptXY, applyBatch_cryo, applyBatch_scin1, applyBatch_scin2,
      applyBatch_bs1, applyBatch_bs2]

/-- C3 (amended): running the sequence twice in succession is idempotent
on the device state - the second run changes no axis value - and the
second run skips the guarded beamstop batch entirely; but the second run
is not move-free: the unconditional batches and the scintillator-safety
batch are re-issued. -/
theorem sequencer_rerun_idempotent_on_state (s : UDC.UDCState) :
    (UDC.move_to_default_UDC_state (UDC.move_to_default_UDC_state s).2).2 =
      (UDC.move_to_default_UDC_state s).2 ∧
    ((UDC.move_to_default_UDC_state (UDC.move_to_default_UDC_state s).2).1.countP
      (fun a => UDC.UAction.isBsMv a)) = 0 := by
  constructor
  · rw [move_to_default_state_fields s, move_to_default_state_fields]
    by_cases h1 : s.scin_y < 2 / 125 ∧ s.scin_z < 1 / 10 <;>
      by_cases h2 : 25 < s.bs_z ∧ 25 < s.bs_y <;>
        norm_num [h1, h2]
  · rw [move_to_default_bs_moves, move_to_default_state_fields s]
    by_cases h2 : 25 < s.bs_z ∧ 25 < s.bs_y <;> norm_num [h2]

/-! ### C5: the no-diffraction outcome -/

/-- C5: when the analysis outcome for the collection group is "no
diffraction found", `wait_for_results` returns the supplied fallback
position as the centre with no bounding-box size and appends exactly one
no-diffraction comment to the collection record, and the caller
`run_gridscan_and_move` skips the aperture change and ends by moving to
the fallback position, raising no error. -/
theorem no_diffraction_uses_fallback (fallback_xyz : Point3D) :
    Zocalo.wait_for_results Zocalo.ZOutcome.noDiff fallback_xyz =
      ((fallback_xyz, none), [Zocalo.noDiffractionComment]) ∧
    (Zocalo.run_gridscan_and_move Zocalo.ZOutcome.noDiff fallback_xyz).2 =
      [Zocalo.noDiffractionComment] ∧
    (∀ b, Stepped.SAction.setApertureFor b ∉
      (Zocalo.run_gridscan_and_move Zocalo.ZOutcome.noDiff fallback_xyz).1) ∧
    (Zocalo.run_gridscan_and_move Zocalo.ZOutcome.noDiff fallback_xyz).1.getLast? =
      some (Stepped.SAction.moveXyz fallback_xyz) := by
  refine ⟨rfl, rfl, ?_, rfl⟩
  intro b
  simp [Zocalo.run_gridscan_and_move, Zocalo.wait_for_results]

/-! ### C6: invalid scan parameters raise a distinguished warning -/

/-- C6: when the hardware's scan_invalid flag stays set for all five
validation polls, `run_gridscan` of `stepped_grid_scan_plan.py`
terminates with a `WarningException` (the distinguished catchable kind,
not a generic fault) and the scan kickoff command is never issued. -/
theorem invalid_params_raise_warning_no_kickoff (si : ℕ → Bool) (pc : ℕ → ℤ)
    (h : ∀ i, i < 5 → si i = true) :
    (Stepped.run_gridscan si pc).2 = some (Err.warning Stepped.scanInvalidMsg) ∧
    Stepped.SAction.kickoffScan ∉ (Stepped.run_gridscan si pc).1 := by
  have hl : Stepped.wait_for_fgs_valid si pc (1 / 2) =
      ([Stepped.SAction.readScanValidity, Stepped.SAction.sleepCheck,
        Stepped.SAction.readScanValidity, Stepped.SAction.sleepCheck,
        Stepped.SAction.readScanValidity, Stepped.SAction.sleepCheck,
        Stepped.SAction.readScanValidity, Stepped.SAction.sleepCheck,
        Stepped.SAction.readScanValidity, Stepped.SAction.sleepCheck],
        some (Err.warning Stepped.scanInvalidMsg)) := by
    norm_num [Stepped.wait_for_fgs_valid, Stepped.wait_for_fgs_valid_loop,
      h 0 (by norm_num), h 1 (by norm_num), h 2 (by norm_num), h 3 (by norm_num),
      h 4 (by norm_num)]
  have hrun : Stepped.run_gridscan si pc =
      ([Stepped.SAction.setOmegaZero, Stepped.SAction.readHardwareForIspyb,
        Stepped.SAction.setSteppedGridScanParams,
        Stepped.SAction.readScanValidity, Stepped.SAction.sleepCheck,
        Stepped.SAction.readScanValidity, Stepped.SAction.sleepCheck,
        Stepped.SAction.readScanValidity, Stepped.SAction.sleepCheck,
        Stepped.SAction.readScanValidity, Stepped.SAction.sleepCheck,
        Stepped.SAction.readScanValidity, Stepped.SAction.sleepCheck],
        some (Err.warning Stepped.scanInvalidMsg)) := by
    simp only [Stepped.run_gridscan, hl]
    rfl
  rw [hrun]
  exact ⟨rfl, by decide⟩

/-- C6 witness: hardware that always reports scan_invalid. -/
theorem invalid_params_raise_warning_no_kickoff_witness :
    (Stepped.run_gridscan (fun _ => true) (fun _ => 0)).2 =
      some (Err.warning Stepped.scanInvalidMsg) :=
  (invalid_params_raise_warning_no_kickoff (fun _ => true) (fun _ => 0)
    (fun _ _ => rfl)).1

/-! ### C7: events with an unseen descriptor -/

/-- C7 counterexample: a callback that has received no descriptor
documents raises a KeyError from `self.descriptors[doc["descriptor"]]`
when it processes an event - it does not log-and-ignore it. -/
theorem orphan_event_raises :
    Ispyb.lookupDescriptor Ispyb.freshState.descriptors Ispyb.orphanEvent.descriptor = none ∧
    Ispyb.activity_gated_event Ispyb.freshState Ispyb.orphanEvent =
      Except.error (Err.keyError "abc123") :=
  ⟨rfl, rfl⟩

/-- C7 (amended): for every event document whose descriptor uid is not
among the previously received descriptor documents, `activity_gated_event`
raises a KeyError at the descriptor lookup (it is not the defensive
log-and-ignore the spec requires); the stored parameters are not
modified, since the handler aborts before any assignment. -/
theorem orphan_event_keyerror (s : Ispyb.CallbackState) (doc : Ispyb.EventDoc)
    (p : Ispyb.IspybParamsState)
    (hinit : s.ispyb_initialised = true) (hp : s.params = some p)
    (h : Ispyb.lookupDescriptor s.descriptors doc.descriptor = none) :
    Ispyb.activity_gated_event s doc = Except.error (Err.keyError doc.descriptor) := by
  simp [Ispyb.activity_gated_event, hinit, hp, h]

/-- C7 witness: the fresh callback state and the orphan event. -/
theorem orphan_event_keyerror_witness :
    Ispyb.activity_gated_event Ispyb.freshState Ispyb.orphanEvent =
      Except.error (Err.keyError Ispyb.orphanEvent.descriptor) :=
  orphan_event_keyerror Ispyb.freshState Ispyb.orphanEvent Ispyb.emptyParams rfl rfl rfl

/-! ### C9: flattening nested parameter dictionaries -/

/-- C9 counterexample: on `dupInput` the key `a` occurs in two different
places (a top-level leaf and a leaf two dict levels down), yet
`flatten_dict` does not raise: it returns successfully, silently keeping
only the deeper value. -/
theorem flatten_dict_misses_nested_duplicate :
    (Params.allKeys Params.dupInput).count "a" = 2 ∧
    Params.flatten_dict Params.dupInput [] [] = Except.ok [("a", 2)] := by
  constructor
  · simp only [Params.allKeys, Params.dupInput]
    decide
  · simp [Params.flatten_dict, Params.dupInput, Params.containsKey,
      Params.updateAll, Params.updateEntry]

/-- C9 (amended): `flatten_dict`'s duplicate check only compares a leaf key
against the accumulations of the current level and of the immediately
enclosing call, so duplicates separated by two or more nesting levels are
silently merged (last value wins); for every input in which no key occurs
twice anywhere, it returns the flat mapping containing exactly the leaf
key/value pairs, in traversal order. -/
theorem flatten_dict_unique_keys (d : List (String × Params.PVal))
    (hnd : (Params.allKeys d).Nodup) :
    Params.flatten_dict d [] [] = Except.ok (Params.leaves d) := by
  have h := flatten_dict_ok_general d [] [] hnd (fun _ _ => rfl) (fun _ _ => rfl)
  simpa using h

/-- C9 witness: a nested input with unique keys flattens to its leaves. -/
theorem flatten_dict_unique_keys_witness :
    Params.flatten_dict Params.uniqInput [] [] =
      Except.ok [("a", 1), ("c", 2), ("d", 3)] := by
  have h := flatten_dict_unique_keys Params.uniqInput
    (by simp only [Params.allKeys, Params.uniqInput]; decide)
  rw [h]
  norm_num [Params.leaves, Params.uniqInput]

end Hyperion
